import Mathlib

/-!
A shallow embedding of the order-placement / inventory core of the
e-commerce backend (files `app/models.py`, `app/crud.py`,
`app/routers/orders.py`, `app/routers/inventory.py`, `app/schemas.py`),
together with theorems checking the natural-language specification of that
core against the embedded code.

Conventions of the embedding:
  - SQLAlchemy rows become Lean structures, the database session becomes an
    explicit `DB` state record threaded through every operation.
  - `Numeric(10, 2)` / Python `Decimal` money values become `ℚ` (exact
    rational arithmetic, the faithful model of exact decimal arithmetic).
  - Python functions that can raise become `Except ApiError` results; the
    state is returned alongside so that state changes are visible.
  - Pydantic schema validation (`Field(ge=0)`, `Field(gt=0)`) runs before a
    route handler; it is modelled as an explicit check producing
    `ApiError.validationError`.
-/

/-- `models.Product` (`app/models.py`).  NOTE (mirrored from the source):
the `quantity` column was removed from `products` (migration
`c3a9f1b2d4e6_remove_product_quantity.py`); stock is tracked solely in the
`Inventory` table.  A Python attribute access `product.quantity` therefore
raises `AttributeError`. -/
structure Product where
  id : Int
  sku : String
  name : String
  price : ℚ
deriving DecidableEq

/-- `models.ShoppingCart` (`app/models.py`). -/
structure ShoppingCart where
  id : Int
  user_id : Int
deriving DecidableEq

/-- `models.ShoppingCartItem` (`app/models.py`). -/
structure ShoppingCartItem where
  id : Int
  cart_id : Int
  product_id : Int
  quantity : Int
deriving DecidableEq

/-- `models.Order` (`app/models.py`). -/
structure Order where
  id : Int
  user_id : Int
  cart_id : Option Int
  address : String
  order_status : String
  total_amount : ℚ
deriving DecidableEq

/-- `models.Inventory` (`app/models.py`).  `last_restocked_at` is a nullable
timestamp, modelled as `Option Nat`. -/
structure Inventory where
  id : Int
  product_id : Int
  quantity_in_stock : Int
  reorder_level : Int
  last_restocked_at : Option Nat
deriving DecidableEq

/-- The relational store reachable from a SQLAlchemy session.  `next_order_id`
and `next_inventory_id` model primary-key generation; `now` models the clock
read by `datetime.now()`. -/
structure DB where
  products : List Product
  carts : List ShoppingCart
  cart_items : List ShoppingCartItem
  orders : List Order
  inventories : List Inventory
  next_order_id : Int
  next_inventory_id : Int
  now : Nat
deriving DecidableEq

/-- `schemas.OrderCreate`: `cart_id` and `address`, both required. -/
structure OrderCreate where
  cart_id : Int
  address : String
deriving DecidableEq

/-- `schemas.OrderUpdate`: optional `address` and optional unconstrained
`order_status` string.  `none` models an unset field (pydantic
`exclude_unset`). -/
structure OrderUpdate where
  address : Option String
  order_status : Option String
deriving DecidableEq

/-- `schemas.InventoryCreate`: `product_id`, `quantity_in_stock` (Field ge 0),
`reorder_level` (Field ge 0).  The bounds are enforced by pydantic before the
route handler runs; see `route_create_inventory`. -/
structure InventoryCreate where
  product_id : Int
  quantity_in_stock : Int
  reorder_level : Int
deriving DecidableEq

/-- `schemas.InventoryUpdate`: both fields optional, each `Field(ge=0)` when
provided. -/
structure InventoryUpdate where
  quantity_in_stock : Option Int
  reorder_level : Option Int
deriving DecidableEq

/-- The errors surfaced by the embedded routes.  `notFound*`, `forbidden`,
`emptyCart`, `insufficientStock`, `invalidOrderStatus`, `cannotDeleteOrder`
and `inventoryExists` are `HTTPException`s raised by the handlers;
`validationError` is a pydantic 422 raised before the handler runs;
`attributeError` and `typeError` are Python exceptions escaping the handler
(HTTP 500). -/
inductive ApiError where
  | notFoundCart (cart_id : Int)
  | forbidden
  | emptyCart
  | notFoundProduct (product_id : Int)
  | insufficientStock (product_name : String) (available : Int)
  | notFoundOrder (order_id : Int)
  | invalidOrderStatus
  | cannotDeleteOrder (order_status : String)
  | notFoundInventory (inventory_id : Int)
  | inventoryExists (product_id : Int)
  | validationError
  | attributeError (attr : String)
  | typeError (msg : String)
deriving DecidableEq

/-- `crud.get_product`: first product row with the given id. -/
def get_product (db : DB) (product_id : Int) : Option Product :=
  db.products.find? (fun p => p.id == product_id)

/-- `crud.get_shopping_cart`: first cart row with the given id. -/
def get_shopping_cart (db : DB) (cart_id : Int) : Option ShoppingCart :=
  db.carts.find? (fun c => c.id == cart_id)

/-- The SQLAlchemy relationship `ShoppingCart.items`: all cart items whose
`cart_id` matches. -/
def cart_items_of (db : DB) (cart_id : Int) : List ShoppingCartItem :=
  db.cart_items.filter (fun i => i.cart_id == cart_id)

/-- `crud.get_order`: first order row with the given id. -/
def get_order (db : DB) (order_id : Int) : Option Order :=
  db.orders.find? (fun o => o.id == order_id)

/-- `crud.get_inventory`: first inventory row with the given id. -/
def get_inventory (db : DB) (inventory_id : Int) : Option Inventory :=
  db.inventories.find? (fun i => i.id == inventory_id)

/-- `crud.get_inventory_by_product`: first inventory row for the product. -/
def get_inventory_by_product (db : DB) (product_id : Int) : Option Inventory :=
  db.inventories.find? (fun i => i.product_id == product_id)

/-- One loop iteration of the total computation in `crud.create_order`
(crud.py lines 813-816): a line item contributes `price * quantity` when its
product exists and nothing otherwise (the `if product:` guard silently skips
missing products). -/
def itemContribution (db : DB) (item : ShoppingCartItem) : ℚ :=
  match get_product db item.product_id with
  | some p => p.price * (item.quantity : ℚ)
  | none => 0

/-- `crud.create_order` (crud.py lines 792-828).  Loads the cart, computes
`total_amount` starting from `Decimal("0.00")` and accumulating
`price * quantity` over the cart items (skipping a missing cart, an empty
cart, and missing products), then inserts an Order row with
`order_status = "pending"` and commits.  It never raises, never touches
inventory, and never clears the cart. -/
def crud_create_order (db : DB) (user_id : Int) (order : OrderCreate) :
    Order × DB :=
  let cart := get_shopping_cart db order.cart_id
  let items : List ShoppingCartItem :=
    match cart with
    | some c => cart_items_of db c.id
    | none => []
  let total_amount : ℚ :=
    items.foldl (fun acc item => acc + itemContribution db item) 0
  let db_order : Order :=
    { id := db.next_order_id
      user_id := user_id
      cart_id := some order.cart_id
      address := order.address
      order_status := "pending"
      total_amount := total_amount }
  (db_order,
   { db with
      orders := db.orders ++ [db_order]
      next_order_id := db.next_order_id + 1 })

/-- The stock-availability loop of the router `create_order`
(`app/routers/orders.py` lines 65-77).  For each cart item it resolves the
product, raising 404 if absent; it then evaluates
`product.quantity < item.quantity` — but `Product` no longer has a
`quantity` attribute (the column was dropped; see `models.py` lines 112-113
and migration `c3a9f1b2d4e6`), so this attribute access raises
`AttributeError` whenever the product exists.  No iteration can complete. -/
def check_stock_loop (db : DB) : List ShoppingCartItem → Except ApiError Unit
  | [] => Except.ok ()
  | item :: _ =>
    match get_product db item.product_id with
    | none => Except.error (ApiError.notFoundProduct item.product_id)
    | some _ => Except.error (ApiError.attributeError "quantity")

/-- The route handler `create_order` (`app/routers/orders.py` lines 24-89).
Checks, in order: cart existence (404), cart ownership (403), non-empty cart
(400), then runs the stock-availability loop.  If the loop were ever to
finish, line 80 would call `crud.create_order(db=db, customer_id=..., ...)`
— but `crud.create_order` has parameter `user_id`, not `customer_id`, so
this call raises `TypeError` before executing any of the data layer. -/
def router_create_order (db : DB) (current_user_id : Int)
    (order : OrderCreate) : Except ApiError Order × DB :=
  match get_shopping_cart db order.cart_id with
  | none => (Except.error (ApiError.notFoundCart order.cart_id), db)
  | some cart =>
    if cart.user_id != current_user_id then
      (Except.error ApiError.forbidden, db)
    else
      let items := cart_items_of db cart.id
      if items.isEmpty then
        (Except.error ApiError.emptyCart, db)
      else
        match check_stock_loop db items with
        | Except.error e => (Except.error e, db)
        | Except.ok _ =>
          (Except.error
            (ApiError.typeError "unexpected keyword argument customer_id"),
           db)

/-- The list of accepted order statuses
(`app/routers/orders.py` line 199). -/
def valid_statuses : List String :=
  ["pending", "confirmed", "shipped", "delivered", "cancelled"]

/-- `crud.update_order` (crud.py lines 831-857): looks the order up, applies
the provided (set) fields with `setattr`, commits. -/
def crud_update_order (db : DB) (order_id : Int) (upd : OrderUpdate) :
    Option Order × DB :=
  match get_order db order_id with
  | none => (none, db)
  | some o =>
    let o1 : Order :=
      match upd.address with
      | some a => { o with address := a }
      | none => o
    let o2 : Order :=
      match upd.order_status with
      | some st => { o1 with order_status := st }
      | none => o1
    (some o2,
     { db with
        orders := db.orders.map (fun x => if x.id == order_id then o2 else x) })

/-- The route handler `update_order` (`app/routers/orders.py` lines
161-207).  After the 404 and ownership checks, the status validation is
`if order_update.order_status and order_update.order_status not in
valid_statuses`: Python truthiness makes both `None` and the empty string
falsy, so an empty-string status skips the validation entirely. -/
def router_update_order (db : DB) (current_user_id : Int) (order_id : Int)
    (upd : OrderUpdate) : Except ApiError Order × DB :=
  match get_order db order_id with
  | none => (Except.error (ApiError.notFoundOrder order_id), db)
  | some o =>
    if o.user_id != current_user_id then
      (Except.error ApiError.forbidden, db)
    else
      let statusInvalid : Bool :=
        match upd.order_status with
        | some st => st != "" && !(valid_statuses.contains st)
        | none => false
      if statusInvalid then
        (Except.error ApiError.invalidOrderStatus, db)
      else
        match crud_update_order db order_id upd with
        | (some o2, db2) => (Except.ok o2, db2)
        | (none, db2) => (Except.error (ApiError.notFoundOrder order_id), db2)

/-- `crud.delete_order` (crud.py lines 860-876). -/
def crud_delete_order (db : DB) (order_id : Int) : Option Order × DB :=
  match get_order db order_id with
  | none => (none, db)
  | some o =>
    (some o,
     { db with orders := db.orders.filter (fun x => !(x.id == order_id)) })

/-- The route handler `delete_order` (`app/routers/orders.py` lines
210-253): 404 if absent, 403 if not the owner, 400 if the status is
`shipped` or `delivered`, otherwise deletes. -/
def router_delete_order (db : DB) (current_user_id : Int) (order_id : Int) :
    Except ApiError Order × DB :=
  match get_order db order_id with
  | none => (Except.error (ApiError.notFoundOrder order_id), db)
  | some o =>
    if o.user_id != current_user_id then
      (Except.error ApiError.forbidden, db)
    else if o.order_status == "shipped" || o.order_status == "delivered" then
      (Except.error (ApiError.cannotDeleteOrder o.order_status), db)
    else
      match crud_delete_order db order_id with
      | (some d, db2) => (Except.ok d, db2)
      | (none, db2) => (Except.error (ApiError.notFoundOrder order_id), db2)

/-- `crud.create_inventory` (crud.py lines 1258-1281): inserts a row;
`last_restocked_at` is stamped at creation exactly when the initial
quantity is positive. -/
def crud_create_inventory (db : DB) (inv : InventoryCreate) :
    Inventory × DB :=
  let db_inventory : Inventory :=
    { id := db.next_inventory_id
      product_id := inv.product_id
      quantity_in_stock := inv.quantity_in_stock
      reorder_level := inv.reorder_level
      last_restocked_at :=
        if inv.quantity_in_stock > 0 then some db.now else none }
  (db_inventory,
   { db with
      inventories := db.inventories ++ [db_inventory]
      next_inventory_id := db.next_inventory_id + 1 })

/-- The route handler `create_inventory` (`app/routers/inventory.py` lines
18-56), preceded by pydantic validation of `InventoryCreate`
(`quantity_in_stock` ge 0, `reorder_level` ge 0). -/
def route_create_inventory (db : DB) (inv : InventoryCreate) :
    Except ApiError Inventory × DB :=
  if inv.quantity_in_stock < 0 || inv.reorder_level < 0 then
    (Except.error ApiError.validationError, db)
  else
    match get_product db inv.product_id with
    | none => (Except.error (ApiError.notFoundProduct inv.product_id), db)
    | some _ =>
      match get_inventory_by_product db inv.product_id with
      | some _ => (Except.error (ApiError.inventoryExists inv.product_id), db)
      | none =>
        let r := crud_create_inventory db inv
        (Except.ok r.1, r.2)

/-- `crud.update_inventory` (crud.py lines 1284-1310): applies the provided
fields with `setattr`. -/
def crud_update_inventory (db : DB) (inventory_id : Int)
    (upd : InventoryUpdate) : Option Inventory × DB :=
  match get_inventory db inventory_id with
  | none => (none, db)
  | some i =>
    let i1 : Inventory :=
      match upd.quantity_in_stock with
      | some q => { i with quantity_in_stock := q }
      | none => i
    let i2 : Inventory :=
      match upd.reorder_level with
      | some r => { i1 with reorder_level := r }
      | none => i1
    (some i2,
     { db with
        inventories :=
          db.inventories.map (fun x => if x.id == inventory_id then i2 else x) })

/-- The route handler `update_inventory` (`app/routers/inventory.py` lines
143-173), preceded by pydantic validation of `InventoryUpdate` (each
provided field ge 0). -/
def route_update_inventory (db : DB) (inventory_id : Int)
    (upd : InventoryUpdate) : Except ApiError Inventory × DB :=
  if (match upd.quantity_in_stock with | some q => decide (q < 0) | none => false) ||
     (match upd.reorder_level with | some r => decide (r < 0) | none => false) then
    (Except.error ApiError.validationError, db)
  else
    match crud_update_inventory db inventory_id upd with
    | (some i, db2) => (Except.ok i, db2)
    | (none, db2) =>
      (Except.error (ApiError.notFoundInventory inventory_id), db2)

/-- `crud.restock_inventory` (crud.py lines 1313-1338): looks the row up,
adds `quantity_to_add` to `quantity_in_stock`, stamps `last_restocked_at`
with `datetime.now()`, commits. -/
def crud_restock_inventory (db : DB) (inventory_id : Int)
    (quantity_to_add : Int) : Option Inventory × DB :=
  match get_inventory db inventory_id with
  | none => (none, db)
  | some i =>
    let i2 : Inventory :=
      { i with
          quantity_in_stock := i.quantity_in_stock + quantity_to_add
          last_restocked_at := some db.now }
    (some i2,
     { db with
        inventories :=
          db.inventories.map (fun x => if x.id == inventory_id then i2 else x) })

/-- The route handler `restock_inventory` (`app/routers/inventory.py` lines
176-206), preceded by pydantic validation of `InventoryRestock`
(`quantity_to_add` gt 0, i.e. the `InvalidQuantity` rejection of the spec). -/
def route_restock_inventory (db : DB) (inventory_id : Int)
    (quantity_to_add : Int) : Except ApiError Inventory × DB :=
  if quantity_to_add ≤ 0 then
    (Except.error ApiError.validationError, db)
  else
    match crud_restock_inventory db inventory_id quantity_to_add with
    | (some i, db2) => (Except.ok i, db2)
    | (none, db2) =>
      (Except.error (ApiError.notFoundInventory inventory_id), db2)

/-- `crud.delete_inventory` (crud.py lines 1341-1357). -/
def crud_delete_inventory (db : DB) (inventory_id : Int) :
    Option Inventory × DB :=
  match get_inventory db inventory_id with
  | none => (none, db)
  | some i =>
    (some i,
     { db with
        inventories := db.inventories.filter (fun x => !(x.id == inventory_id)) })

/-- The route handler `delete_inventory` (`app/routers/inventory.py` lines
209-230). -/
def route_delete_inventory (db : DB) (inventory_id : Int) :
    Except ApiError Inventory × DB :=
  match crud_delete_inventory db inventory_id with
  | (some i, db2) => (Except.ok i, db2)
  | (none, db2) => (Except.error (ApiError.notFoundInventory inventory_id), db2)

/-- The state-mutating operations of the embedded core, as exposed by the
system: the inventory routes (with their pydantic validation), the order
routes, and the data-layer `crud.create_order` (called directly by the
repository's own test suite).  These are the only code paths of the core
that write to the store. -/
inductive Op where
  | createInventory (inv : InventoryCreate)
  | updateInventory (inventory_id : Int) (upd : InventoryUpdate)
  | restockInventory (inventory_id : Int) (quantity_to_add : Int)
  | deleteInventory (inventory_id : Int)
  | routerCreateOrder (user_id : Int) (order : OrderCreate)
  | dataCreateOrder (user_id : Int) (order : OrderCreate)
  | updateOrder (user_id : Int) (order_id : Int) (upd : OrderUpdate)
  | deleteOrder (user_id : Int) (order_id : Int)
deriving DecidableEq

/-- State transition of one operation (results discarded, state kept). -/
def step (db : DB) : Op → DB
  | Op.createInventory inv => (route_create_inventory db inv).2
  | Op.updateInventory iid upd => (route_update_inventory db iid upd).2
  | Op.restockInventory iid q => (route_restock_inventory db iid q).2
  | Op.deleteInventory iid => (route_delete_inventory db iid).2
  | Op.routerCreateOrder uid ord => (router_create_order db uid ord).2
  | Op.dataCreateOrder uid ord => (crud_create_order db uid ord).2
  | Op.updateOrder uid oid upd => (router_update_order db uid oid upd).2
  | Op.deleteOrder uid oid => (router_delete_order db uid oid).2

/-- The central inventory invariant: every inventory row has non-negative
`quantity_in_stock`. -/
def StockNonneg (db : DB) : Prop :=
  ∀ i ∈ db.inventories, 0 ≤ i.quantity_in_stock

/-- Whether an `Except` result is a success. -/
def exceptIsOk {ε α : Type} : Except ε α → Bool
  | Except.ok _ => true
  | Except.error _ => false

/-- Product row of Scenario A: `SKU_SINGLE`, price 10.00. -/
def prodA : Product := { id := 1, sku := "SKU_SINGLE", name := "Prod", price := 10 }

/-- Cart row of Scenario A, owned by user 1. -/
def cartA : ShoppingCart := { id := 1, user_id := 1 }

/-- Inventory row of Scenario A: stock 3. -/
def invA : Inventory :=
  { id := 1, product_id := 1, quantity_in_stock := 3, reorder_level := 1,
    last_restocked_at := none }

/-- Scenario A fixture (`test_single_order_decrements_and_clears_cart`):
product `SKU_SINGLE` priced 10.00 with inventory stock 3, one cart owned by
user 1 holding quantity 2 of the product. -/
def dbScenarioA : DB :=
  { products := [prodA]
    carts := [cartA]
    cart_items := [{ id := 1, cart_id := 1, product_id := 1, quantity := 2 }]
    orders := []
    inventories := [invA]
    next_order_id := 1
    next_inventory_id := 2
    now := 0 }

/-- The order-creation request of Scenario A. -/
def ordA : OrderCreate := { cart_id := 1, address := "123 Test St" }

/-- Scenario B fixture (`test_concurrent_orders_do_not_oversell`): product
`SKU_CONC` with inventory stock 1; two users, each with a cart holding
quantity 1 of the product. -/
def dbScenarioB : DB :=
  { products := [{ id := 1, sku := "SKU_CONC", name := "Prod", price := 10 }]
    carts := [{ id := 1, user_id := 1 }, { id := 2, user_id := 2 }]
    cart_items :=
      [{ id := 1, cart_id := 1, product_id := 1, quantity := 1 },
       { id := 2, cart_id := 2, product_id := 1, quantity := 1 }]
    orders := []
    inventories :=
      [{ id := 1, product_id := 1, quantity_in_stock := 1, reorder_level := 1,
         last_restocked_at := none }]
    next_order_id := 1
    next_inventory_id := 2
    now := 0 }

/-- Insufficient-stock fixture: inventory stock 2, but the cart of user 1
requests quantity 5 of the product. -/
def dbScenarioInsuf : DB :=
  { products := [{ id := 1, sku := "SKU1", name := "Prod", price := 10 }]
    carts := [{ id := 1, user_id := 1 }]
    cart_items := [{ id := 1, cart_id := 1, product_id := 1, quantity := 5 }]
    orders := []
    inventories :=
      [{ id := 1, product_id := 1, quantity_in_stock := 2, reorder_level := 1,
         last_restocked_at := none }]
    next_order_id := 1
    next_inventory_id := 2
    now := 0 }

/-- A pending order owned by user 1. -/
def ordPending : Order :=
  { id := 1, user_id := 1, cart_id := none, address := "A",
    order_status := "pending", total_amount := 0 }

/-- A shipped order owned by user 1. -/
def ordShipped : Order :=
  { id := 2, user_id := 1, cart_id := none, address := "A",
    order_status := "shipped", total_amount := 0 }

/-- Order-lifecycle fixture: order 1 is `pending` and order 2 is `shipped`,
both owned by user 1. -/
def dbOrders : DB :=
  { products := []
    carts := []
    cart_items := []
    orders := [ordPending, ordShipped]
    inventories := []
    next_order_id := 3
    next_inventory_id := 1
    now := 0 }

/-- A store holding only one cart (owned by user 1) with no items. -/
def dbEmptyCart : DB :=
  { products := []
    carts := [cartA]
    cart_items := []
    orders := []
    inventories := []
    next_order_id := 1
    next_inventory_id := 1
    now := 0 }

/-- The empty store. -/
def dbEmpty : DB :=
  { products := []
    carts := []
    cart_items := []
    orders := []
    inventories := []
    next_order_id := 1
    next_inventory_id := 1
    now := 0 }

/-! ## Helper lemmas -/

/-- Every path through the route handler `create_order` returns the store
unchanged: the three precondition checks, the 404 on a missing product, the
`AttributeError` on `product.quantity`, and the `TypeError` on the
`customer_id` keyword all fire before any mutation. -/
theorem router_create_order_state_eq (db : DB) (uid : Int) (ord : OrderCreate) :
    (router_create_order db uid ord).2 = db := by
  unfold router_create_order
  cases get_shopping_cart db ord.cart_id with
  | none => rfl
  | some cart =>
    dsimp only
    split
    · rfl
    · split
      · rfl
      · split <;> rfl

/-- The Python accumulation loop `total += f(item)` equals the sum of the
mapped list. -/
theorem foldl_add_eq_sum (f : ShoppingCartItem → ℚ) (l : List ShoppingCartItem)
    (a : ℚ) : l.foldl (fun acc it => acc + f it) a = a + (l.map f).sum := by
  induction l generalizing a with
  | nil => simp
  | cons x xs ih => simp [ih, add_assoc]

/-- `crud.update_order` writes only to the orders table. -/
theorem crud_update_order_inventories (db : DB) (oid : Int) (upd : OrderUpdate) :
    (crud_update_order db oid upd).2.inventories = db.inventories := by
  unfold crud_update_order
  cases get_order db oid <;> rfl

/-- The route handler `update_order` writes only to the orders table. -/
theorem router_update_order_inventories (db : DB) (uid oid : Int)
    (upd : OrderUpdate) :
    (router_update_order db uid oid upd).2.inventories = db.inventories := by
  unfold router_update_order
  cases ho : get_order db oid with
  | none => rfl
  | some o =>
    dsimp only
    split
    · rfl
    · split
      · rfl
      · rcases hcu : crud_update_order db oid upd with ⟨res, db2⟩
        have hinv : db2.inventories = db.inventories := by
          have h2 := crud_update_order_inventories db oid upd
          rw [hcu] at h2
          exact h2
        cases res <;> simp [hcu, hinv]

/-- `crud.delete_order` writes only to the orders table. -/
theorem crud_delete_order_inventories (db : DB) (oid : Int) :
    (crud_delete_order db oid).2.inventories = db.inventories := by
  unfold crud_delete_order
  cases get_order db oid <;> rfl

/-- The route handler `delete_order` writes only to the orders table. -/
theorem router_delete_order_inventories (db : DB) (uid oid : Int) :
    (router_delete_order db uid oid).2.inventories = db.inventories := by
  unfold router_delete_order
  cases ho : get_order db oid with
  | none => rfl
  | some o =>
    dsimp only
    split
    · rfl
    · split
      · rfl
      · rcases hcd : crud_delete_order db oid with ⟨res, db2⟩
        have hinv : db2.inventories = db.inventories := by
          have h2 := crud_delete_order_inventories db oid
          rw [hcd] at h2
          exact h2
        cases res <;> simp [hcd, hinv]

/-- One step of any operation preserves non-negativity of every
`quantity_in_stock`: inventory creation and update are validated to be
non-negative, restock is validated to be positive, deletion removes rows,
and no order operation writes to the inventory table at all (the code has
no reservation/decrement path). -/
theorem step_preserves_stockNonneg (db : DB) (op : Op) (h : StockNonneg db) :
    StockNonneg (step db op) := by
  cases op with
  | createInventory inv =>
    show StockNonneg (route_create_inventory db inv).2
    unfold route_create_inventory
    split
    · exact h
    next hval =>
      simp only [Bool.or_eq_true, decide_eq_true_eq, not_or] at hval
      cases get_product db inv.product_id with
      | none => exact h
      | some p =>
        dsimp only
        cases get_inventory_by_product db inv.product_id with
        | some i0 => exact h
        | none =>
          dsimp only [crud_create_inventory]
          intro i hi
          rcases List.mem_append.mp hi with hmem | hmem
          · exact h i hmem
          · simp only [List.mem_singleton] at hmem
            subst hmem
            dsimp only
            omega
  | updateInventory iid upd =>
    show StockNonneg (route_update_inventory db iid upd).2
    rcases upd with ⟨uq, ur⟩
    unfold route_update_inventory
    split
    · exact h
    next hval =>
      unfold crud_update_inventory
      cases hgi : get_inventory db iid with
      | none => exact h
      | some i =>
        have hbase : 0 ≤ i.quantity_in_stock :=
          h i (List.mem_of_find?_eq_some hgi)
        dsimp only
        intro x hx
        rcases List.mem_map.mp hx with ⟨y, hy, hxy⟩
        by_cases hid : (y.id == iid) = true
        · rw [if_pos hid] at hxy
          subst hxy
          cases uq <;> cases ur <;>
            simp only [Bool.or_eq_true, decide_eq_true_eq, not_or,
              Bool.false_or, Bool.or_false, Bool.false_eq_true,
              not_false_iff] at hval <;>
          dsimp only <;> omega
        · rw [if_neg hid] at hxy
          subst hxy
          exact h y hy
  | restockInventory iid q =>
    show StockNonneg (route_restock_inventory db iid q).2
    unfold route_restock_inventory
    split
    · exact h
    next hval =>
      unfold crud_restock_inventory
      cases hgi : get_inventory db iid with
      | none => exact h
      | some i =>
        have hbase : 0 ≤ i.quantity_in_stock :=
          h i (List.mem_of_find?_eq_some hgi)
        dsimp only
        intro x hx
        rcases List.mem_map.mp hx with ⟨y, hy, hxy⟩
        by_cases hid : (y.id == iid) = true
        · rw [if_pos hid] at hxy
          subst hxy
          dsimp only
          omega
        · rw [if_neg hid] at hxy
          subst hxy
          exact h y hy
  | deleteInventory iid =>
    show StockNonneg (route_delete_inventory db iid).2
    unfold route_delete_inventory crud_delete_inventory
    cases hgi : get_inventory db iid with
    | none => exact h
    | some i =>
      dsimp only
      intro x hx
      exact h x (List.mem_of_mem_filter hx)
  | routerCreateOrder uid ord =>
    show StockNonneg (router_create_order db uid ord).2
    rw [router_create_order_state_eq]
    exact h
  | dataCreateOrder uid ord =>
    exact h
  | updateOrder uid oid upd =>
    show StockNonneg (router_update_order db uid oid upd).2
    intro i hi
    rw [router_update_order_inventories] at hi
    exact h i hi
  | deleteOrder uid oid =>
    show StockNonneg (router_delete_order db uid oid).2
    intro i hi
    rw [router_delete_order_inventories] at hi
    exact h i hi

/-! ## Claim theorems -/

/-- C1: the claim states that under concurrent `create_order` calls against
stock K, exactly K succeed, the rest fail with InsufficientStock, and the
two-caller stock-1 scenario ends with stock 0.  The embedded
`crud.create_order` has no failure path and never writes to the inventory
table, so in every serialization of the two Scenario B calls BOTH calls
succeed (two pending orders are created) and the stock stays at 1 — the
claim fails on the code, while the repository's own test
`test_concurrent_orders_do_not_oversell` asserts the claimed behaviour. -/
theorem concurrent_orders_oversell_uncaught :
    ((crud_create_order dbScenarioB 1
        { cart_id := 1, address := "Addr" }).1.order_status = "pending" ∧
     (crud_create_order
        (crud_create_order dbScenarioB 1 { cart_id := 1, address := "Addr" }).2
        2 { cart_id := 2, address := "Addr" }).1.order_status = "pending" ∧
     (crud_create_order
        (crud_create_order dbScenarioB 1 { cart_id := 1, address := "Addr" }).2
        2 { cart_id := 2, address := "Addr" }).2.orders.length = 2 ∧
     (get_inventory_by_product
        (crud_create_order
          (crud_create_order dbScenarioB 1 { cart_id := 1, address := "Addr" }).2
          2 { cart_id := 2, address := "Addr" }).2 1).map
        Inventory.quantity_in_stock = some 1) ∧
    ((crud_create_order
        (crud_create_order dbScenarioB 2 { cart_id := 2, address := "Addr" }).2
        1 { cart_id := 1, address := "Addr" }).2.orders.length = 2 ∧
     (get_inventory_by_product
        (crud_create_order
          (crud_create_order dbScenarioB 2 { cart_id := 2, address := "Addr" }).2
          1 { cart_id := 1, address := "Addr" }).2 1).map
        Inventory.quantity_in_stock = some 1) := by
  decide

/-- C2: the claim (and the test `test_single_order_decrements_and_clears_cart`)
says Scenario A leaves stock 1 and an empty cart.  Evaluating the embedded
`crud.create_order` on the Scenario A fixture: the call succeeds (pending
order) but the stock stays 3 and the cart keeps its single line item — the
code neither decrements inventory nor clears the cart. -/
theorem single_order_no_decrement_no_clear :
    (crud_create_order dbScenarioA 1 ordA).1.order_status = "pending" ∧
    (get_inventory_by_product (crud_create_order dbScenarioA 1 ordA).2 1).map
      Inventory.quantity_in_stock = some 3 ∧
    (cart_items_of (crud_create_order dbScenarioA 1 ordA).2 1).length = 1 := by
  decide

/-- C3: the claim says a cart requesting more than the available stock fails
with `InsufficientStock` naming the product and its available quantity.  On
the embedded router, the stock check dereferences the removed
`product.quantity` attribute, so the call fails with `AttributeError`
(HTTP 500) instead — it never produces `InsufficientStock` (the store is
left unchanged, so the no-partial-decrement half of the claim holds
vacuously). -/
theorem insufficient_stock_raises_attribute_error :
    router_create_order dbScenarioInsuf 1 { cart_id := 1, address := "Addr" } =
      (Except.error (ApiError.attributeError "quantity"), dbScenarioInsuf) ∧
    ∀ pname avail,
      (router_create_order dbScenarioInsuf 1
        { cart_id := 1, address := "Addr" }).1 ≠
        Except.error (ApiError.insufficientStock pname avail) := by
  refine ⟨by rfl, ?_⟩
  intro pname avail hcontra
  rw [show (router_create_order dbScenarioInsuf 1
      { cart_id := 1, address := "Addr" }).1 =
      Except.error (ApiError.attributeError "quantity") from rfl] at hcontra
  simp at hcontra

/-- C4: every call to the route handler `create_order` that fails leaves the
inventory rows, the cart items, and the order-table row count exactly as
before the call. -/
theorem failed_create_order_leaves_state_unchanged (db : DB) (uid : Int)
    (ord : OrderCreate) (e : ApiError)
    (h : (router_create_order db uid ord).1 = Except.error e) :
    (router_create_order db uid ord).2.inventories = db.inventories ∧
    (router_create_order db uid ord).2.cart_items = db.cart_items ∧
    (router_create_order db uid ord).2.orders.length = db.orders.length := by
  rw [router_create_order_state_eq]
  exact ⟨rfl, rfl, rfl⟩

/-- Witness for C4 at a concrete input: on the empty store the call fails
with 404 and the state projections are unchanged. -/
theorem failed_create_order_leaves_state_unchanged_witness :
    (router_create_order dbEmpty 1 ordA).2.inventories = dbEmpty.inventories ∧
    (router_create_order dbEmpty 1 ordA).2.cart_items = dbEmpty.cart_items ∧
    (router_create_order dbEmpty 1 ordA).2.orders.length =
      dbEmpty.orders.length :=
  failed_create_order_leaves_state_unchanged dbEmpty 1 ordA
    (ApiError.notFoundCart 1) (by rfl)

/-- C5: the route handler `create_order` fails with 404 NotFound when the
cart does not exist, 403 Forbidden when the cart belongs to another user,
and 400 EmptyCart when the cart has no items; in each case the store (hence
the inventory) is returned untouched. -/
theorem create_order_cart_precondition_errors (db : DB) (uid : Int)
    (ord : OrderCreate) :
    (get_shopping_cart db ord.cart_id = none →
      router_create_order db uid ord =
        (Except.error (ApiError.notFoundCart ord.cart_id), db)) ∧
    (∀ cart, get_shopping_cart db ord.cart_id = some cart →
      cart.user_id ≠ uid →
      router_create_order db uid ord = (Except.error ApiError.forbidden, db)) ∧
    (∀ cart, get_shopping_cart db ord.cart_id = some cart →
      cart.user_id = uid → cart_items_of db cart.id = [] →
      router_create_order db uid ord = (Except.error ApiError.emptyCart, db)) := by
  refine ⟨?_, ?_, ?_⟩
  · intro h
    unfold router_create_order
    rw [h]
  · intro cart hc hne
    unfold router_create_order
    rw [hc]
    dsimp only
    rw [if_pos]
    simpa [bne_iff_ne] using hne
  · intro cart hc heq hempty
    unfold router_create_order
    rw [hc]
    dsimp only
    rw [if_neg, if_pos]
    · simp [hempty]
    · simp [heq]

/-- Witness for C5 at concrete inputs: missing cart on the empty store,
foreign cart on the Scenario A store, and a cart with no items. -/
theorem create_order_cart_precondition_errors_witness :
    router_create_order dbEmpty 2 ordA =
      (Except.error (ApiError.notFoundCart 1), dbEmpty) ∧
    router_create_order dbScenarioA 2 ordA =
      (Except.error ApiError.forbidden, dbScenarioA) ∧
    router_create_order dbEmptyCart 1 ordA =
      (Except.error ApiError.emptyCart, dbEmptyCart) :=
  ⟨(create_order_cart_precondition_errors dbEmpty 2 ordA).1 (by rfl),
   (create_order_cart_precondition_errors dbScenarioA 2 ordA).2.1 cartA
     (by rfl) (by decide),
   (create_order_cart_precondition_errors dbEmptyCart 1 ordA).2.2 cartA
     (by rfl) (by rfl) (by rfl)⟩

/-- C6: when the cart exists and every referenced product exists, the order
created by the data-layer `create_order` has status `pending` and its
`total_amount` is the exact rational (fixed-point, no floating-point) sum
over the cart items of price times quantity. -/
theorem create_order_total_is_exact_sum (db : DB) (uid : Int)
    (ord : OrderCreate) (cart : ShoppingCart)
    (hc : get_shopping_cart db ord.cart_id = some cart)
    (hp : ∀ it ∈ cart_items_of db cart.id, get_product db it.product_id ≠ none) :
    (crud_create_order db uid ord).1.order_status = "pending" ∧
    (crud_create_order db uid ord).1.total_amount =
      ((cart_items_of db cart.id).map (fun it =>
        ((get_product db it.product_id).map Product.price).getD 0 *
          (it.quantity : ℚ))).sum := by
  constructor
  · rfl
  · show (let cart0 := get_shopping_cart db ord.cart_id
          let items : List ShoppingCartItem :=
            match cart0 with
            | some c => cart_items_of db c.id
            | none => []
          items.foldl (fun acc item => acc + itemContribution db item) 0) = _
    rw [hc]
    dsimp only
    rw [foldl_add_eq_sum (itemContribution db), zero_add]
    congr 1
    apply List.map_congr_left
    intro it hit
    have hne := hp it hit
    unfold itemContribution
    cases hg : get_product db it.product_id with
    | none => exact absurd hg hne
    | some p => simp

/-- Witness for C6 on the Scenario A fixture (one item, quantity 2,
price 10.00). -/
theorem create_order_total_is_exact_sum_witness :
    (crud_create_order dbScenarioA 1 ordA).1.order_status = "pending" ∧
    (crud_create_order dbScenarioA 1 ordA).1.total_amount =
      ((cart_items_of dbScenarioA cartA.id).map (fun it =>
        ((get_product dbScenarioA it.product_id).map Product.price).getD 0 *
          (it.quantity : ℚ))).sum :=
  create_order_total_is_exact_sum dbScenarioA 1 ordA cartA (by rfl) (by decide)

/-- C7: starting from any store satisfying the non-negativity invariant,
no sequence of the system's operations (validated inventory creation,
update, restock, deletion, and all order operations) can make any
`quantity_in_stock` negative. -/
theorem stock_nonneg_invariant_preserved (db : DB) (ops : List Op)
    (h : StockNonneg db) : StockNonneg (List.foldl step db ops) := by
  induction ops generalizing db with
  | nil => exact h
  | cons op rest ih => exact ih (step db op) (step_preserves_stockNonneg db op h)

/-- Witness for C7: a concrete operation sequence on the Scenario A store. -/
theorem stock_nonneg_invariant_preserved_witness :
    StockNonneg (List.foldl step dbScenarioA
      [Op.restockInventory 1 5, Op.dataCreateOrder 1 ordA,
       Op.updateInventory 1 { quantity_in_stock := some 0, reorder_level := none },
       Op.deleteOrder 1 1]) :=
  stock_nonneg_invariant_preserved dbScenarioA
    [Op.restockInventory 1 5, Op.dataCreateOrder 1 ordA,
     Op.updateInventory 1 { quantity_in_stock := some 0, reorder_level := none },
     Op.deleteOrder 1 1]
    (by unfold StockNonneg; decide)

/-- C8: for an existing inventory row and `quantity_to_add ≥ 1` the restock
route returns the row with `quantity_in_stock` increased by exactly
`quantity_to_add` and `last_restocked_at` stamped; a non-positive amount is
rejected by the schema validation (`InvalidQuantity`); a missing row yields
404 NotFound.  In the error cases the store is unchanged. -/
theorem restock_contract (db : DB) (iid q : Int) :
    (∀ i, get_inventory db iid = some i → 1 ≤ q →
      route_restock_inventory db iid q =
        (Except.ok
          { i with
              quantity_in_stock := i.quantity_in_stock + q
              last_restocked_at := some db.now },
         { db with
            inventories := db.inventories.map (fun x =>
              if x.id == iid then
                { i with
                    quantity_in_stock := i.quantity_in_stock + q
                    last_restocked_at := some db.now }
              else x) })) ∧
    (q ≤ 0 →
      route_restock_inventory db iid q =
        (Except.error ApiError.validationError, db)) ∧
    (1 ≤ q → get_inventory db iid = none →
      route_restock_inventory db iid q =
        (Except.error (ApiError.notFoundInventory iid), db)) := by
  refine ⟨?_, ?_, ?_⟩
  · intro i hi hq
    unfold route_restock_inventory crud_restock_inventory
    rw [if_neg (by omega), hi]
  · intro hq
    unfold route_restock_inventory
    rw [if_pos hq]
  · intro hq hnone
    unfold route_restock_inventory crud_restock_inventory
    rw [if_neg (by omega), hnone]

/-- Witness for C8 on the Scenario A inventory (stock 3): restock by 5,
restock by 0, restock of a missing row. -/
theorem restock_contract_witness :
    route_restock_inventory dbScenarioA 1 5 =
      (Except.ok
        { invA with
            quantity_in_stock := invA.quantity_in_stock + 5
            last_restocked_at := some dbScenarioA.now },
       { dbScenarioA with
          inventories := dbScenarioA.inventories.map (fun x =>
            if x.id == 1 then
              { invA with
                  quantity_in_stock := invA.quantity_in_stock + 5
                  last_restocked_at := some dbScenarioA.now }
            else x) }) ∧
    route_restock_inventory dbScenarioA 1 0 =
      (Except.error ApiError.validationError, dbScenarioA) ∧
    route_restock_inventory dbScenarioA 99 5 =
      (Except.error (ApiError.notFoundInventory 99), dbScenarioA) :=
  ⟨(restock_contract dbScenarioA 1 5).1 invA (by rfl) (by decide),
   (restock_contract dbScenarioA 1 0).2.1 (by decide),
   (restock_contract dbScenarioA 99 5).2.2 (by decide) (by rfl)⟩

/-- C9 counterexample: the claim says every `order_status` outside the
enumeration is rejected with a validation error.  The empty string is
outside the enumeration, yet the update succeeds (Python truthiness makes
`""` falsy, skipping the check) and the empty-string status is written
through to the stored order. -/
theorem empty_status_update_not_rejected :
    exceptIsOk
      (router_update_order dbOrders 1 1
        { address := none, order_status := some "" }).1 = true ∧
    valid_statuses.contains "" = false ∧
    (get_order
      (router_update_order dbOrders 1 1
        { address := none, order_status := some "" }).2 1).map
      Order.order_status = some "" := by
  decide

/-- C9 (amended): the update route rejects, with a validation error and no
state change, any provided NON-EMPTY `order_status` outside the enumeration
(an empty-string status slips through the falsy check and is written); and
the delete route rejects deletion of every `shipped` or `delivered` order,
leaving the store unchanged. -/
theorem order_status_validation_and_terminal_delete (db : DB) (uid oid : Int)
    (upd : OrderUpdate) :
    (∀ o st, get_order db oid = some o → o.user_id = uid →
      upd.order_status = some st → st ≠ "" → ¬ st ∈ valid_statuses →
      router_update_order db uid oid upd =
        (Except.error ApiError.invalidOrderStatus, db)) ∧
    (∀ o, get_order db oid = some o → o.user_id = uid →
      (o.order_status = "shipped" ∨ o.order_status = "delivered") →
      router_delete_order db uid oid =
        (Except.error (ApiError.cannotDeleteOrder o.order_status), db)) := by
  constructor
  · intro o st ho houser hst hne hnotin
    unfold router_update_order
    rw [ho]
    dsimp only
    rw [if_neg (by simp [houser]), if_pos]
    rw [hst]
    simp only [bne_iff_ne, ne_eq, Bool.and_eq_true, decide_eq_true_eq,
      Bool.not_eq_true]
    constructor
    · simpa using hne
    · simpa using hnotin
  · intro o ho houser hstatus
    unfold router_delete_order
    rw [ho]
    dsimp only
    rw [if_neg (by simp [houser]), if_pos]
    rcases hstatus with h | h <;> simp [h]

/-- Witness for the amended C9: a made-up status `"foo"` is rejected on the
pending order, and deleting the shipped order is rejected. -/
theorem order_status_validation_and_terminal_delete_witness :
    router_update_order dbOrders 1 1
      { address := none, order_status := some "foo" } =
      (Except.error ApiError.invalidOrderStatus, dbOrders) ∧
    router_delete_order dbOrders 1 2 =
      (Except.error (ApiError.cannotDeleteOrder ordShipped.order_status),
       dbOrders) :=
  ⟨(order_status_validation_and_terminal_delete dbOrders 1 1
      { address := none, order_status := some "foo" }).1 ordPending "foo"
      (by rfl) (by rfl) (by rfl) (by decide) (by decide),
   (order_status_validation_and_terminal_delete dbOrders 1 2
      { address := none, order_status := none }).2 ordShipped
      (by rfl) (by rfl) (Or.inl (by rfl))⟩

/-- C10: the data-layer `create_order` raises no error on a missing cart or
an empty cart — it still inserts and returns a `pending` order with
`total_amount = 0.00`, and a missing product among the line items
contributes nothing to the total. -/
theorem data_create_order_never_fails_defaults (db : DB) (uid : Int)
    (ord : OrderCreate)
    (h : get_shopping_cart db ord.cart_id = none ∨
         ∀ cart, get_shopping_cart db ord.cart_id = some cart →
           cart_items_of db cart.id = []) :
    (crud_create_order db uid ord).1.order_status = "pending" ∧
    (crud_create_order db uid ord).1.total_amount = 0 ∧
    (crud_create_order db uid ord).2.orders =
      db.orders ++ [(crud_create_order db uid ord).1] ∧
    (∀ item, get_product db item.product_id = none →
      itemContribution db item = 0) := by
  refine ⟨rfl, ?_, rfl, ?_⟩
  · show (let cart0 := get_shopping_cart db ord.cart_id
          let items : List ShoppingCartItem :=
            match cart0 with
            | some c => cart_items_of db c.id
            | none => []
          items.foldl (fun acc item => acc + itemContribution db item) 0) = 0
    cases hg : get_shopping_cart db ord.cart_id with
    | none => rfl
    | some cart =>
      rcases h with h | h
      · rw [hg] at h
        exact absurd h (by simp)
      · dsimp only
        rw [h cart hg]
        rfl
  · intro item hnone
    unfold itemContribution
    rw [hnone]

/-- Witness for C10: the call on the empty store (no cart with id 1). -/
theorem data_create_order_never_fails_defaults_witness :
    (crud_create_order dbEmpty 1 ordA).1.order_status = "pending" ∧
    (crud_create_order dbEmpty 1 ordA).1.total_amount = 0 ∧
    (crud_create_order dbEmpty 1 ordA).2.orders =
      dbEmpty.orders ++ [(crud_create_order dbEmpty 1 ordA).1] ∧
    (∀ item, get_product dbEmpty item.product_id = none →
      itemContribution dbEmpty item = 0) :=
  data_create_order_never_fails_defaults dbEmpty 1 ordA (Or.inl (by rfl))
